import Mathlib

/-!
Verification development for the Instant Tutor application
(`src/tutor_app.py`), a Streamlit front end that formats a fixed prompt
template from user configuration, starts a chat session with a remote
model provider, and maintains an in-memory transcript.

The embedding models:
  - the prompt template `PROMPT_TEMPLATE` (lines 13-56), split at its three
    placeholders `class_name`, `file_names_str`, `topic_list`, so that
    Python str.format becomes string concatenation (each placeholder occurs
    exactly once in the template);
  - uploaded files as (name, content) pairs; only names reach the prompt
    (line 107);
  - the "Generate Tutor" button handler (lines 95-136) as `generateClick`,
    with the remote provider abstracted as a `Provider` record of fallible
    functions (the `try`/`except` blocks become `Except`);
  - the chat-input handler together with its rendering guard
    (lines 139-166) as `chatInterface`;
  - Streamlit session state as `AppState` with two optional fields
    (`gemini_chat`, `messages`), and app executions as a `Reachable`
    relation over `Step`s.
-/

/-- One entry of the transcript: a Python dict with keys role and content
(lines 130, 150, 161). -/
structure TranscriptEntry where
  role : String
  content : String
deriving DecidableEq, Repr

/-- An uploaded file as Streamlit delivers it: a named object whose content
the app never reads (only `file.name` is used, line 107). -/
structure UploadedFile where
  name : String
  content : String
deriving DecidableEq, Repr

/-- An opaque handle for the provider-side chat session
(`model.start_chat(history=[])`, line 122). -/
structure ChatSession where
  id : Nat
deriving DecidableEq, Repr

/-- Part of `PROMPT_TEMPLATE` before the `class_name` placeholder
(lines 13-16 of tutor_app.py). -/
def PROMPT_TEMPLATE_1 : String :=
  "\n**I. The Persona and Role**\n\nYou are an expert Computer Science teaching assistant and study partner for the university-level course, \""

/-- Part of `PROMPT_TEMPLATE` between `class_name` and `file_names_str`
(lines 16-24). -/
def PROMPT_TEMPLATE_2 : String :=
  "\". Your persona is encouraging, precise, and deeply knowledgeable. You are not just a question-answerer; you are a guide. Your goal is to help me, the student, achieve true mastery of the course material in preparation for an exam. You will maintain a positive and motivational tone throughout our interaction.\n\n**II. The Initial Knowledge Base & Starting Point**\n\nYou are being brought into an ongoing, adaptive study session. Your first task is to absorb the provided context to continue the session seamlessly.\n\n**Your initial context consists of:**\n\n1.  **My Learning Materials:** I have provided a set of files for context named: "

/-- Part of `PROMPT_TEMPLATE` between `file_names_str` and `topic_list`
(lines 24-26). -/
def PROMPT_TEMPLATE_3 : String :=
  ".\n2.  **My Core Topic List:** The following is a list of the core topics I need to master for my exam:\n"

/-- Part of `PROMPT_TEMPLATE` after the `topic_list` placeholder
(lines 26-56). -/
def PROMPT_TEMPLATE_4 : String :=
  "\n\n**Your first action is to analyze this context to establish a baseline understanding of my current knowledge state. Use this to determine the initial set of \"Mastered Topics\" and \"Working Topics\". Do not generate a study guide or start with an easy quiz. We are jumping directly into the core learning loop.**\n\n**III. The Core Interaction Loop: The Adaptive Quiz System**\n\nAfter analyzing the initial context, you will begin generating practice quizzes according to the following iterative loop.\n\n**A. Quiz Generation:**\n\n1.  Generate a practice quiz for me. Quizzes should be short (5-7 questions) and contain a mix of formats suitable for the subject. Quizzes should contain MCQ (Multiple Choice Questions) and FRQ (Free Response Questions).\n2.  **Difficulty & Content Strategy:** All quizzes will be of a consistent, higher difficulty (e.g., 7/10), designed to test nuanced understanding. You must track my performance on a topic-by-topic basis to categorize topics into \"Mastered\", \"Working\", and \"New\". Each quiz must follow this distribution: **~20% Mastered, ~60% Working, and ~20% New Topics.** You must explicitly state when you are using this adaptive strategy.\n3.  **Question Formats:** Use diverse formats like Scenario Analysis, Spot the Flaw, Compare and Contrast, and Justify the \x27Why\x27.\n\n**B. Grading and Feedback:**\n\n1.  I will provide my answers. You will grade them meticulously, providing a score.\n2.  For each question, provide a detailed explanation for the correct answer. Acknowledge the reasoning in my answers, even if they are incorrect.\n3.  After grading, provide a brief, encouraging \"Final Score & Summary\".\n\n**IV. Special Commands and Meta-Interaction**\n\n1.  At any time, I can ask for a \"Progress Report.\" You will then synthesize all our quiz interactions and provide a summary of my progress.\n2.  I will provide feedback on your performance, and you must incorporate it into your subsequent actions.\n\n**V. The Goal State**\n\nOur interaction is successful when I have achieved a perfect score on three consecutive quizzes. At that point, you can congratulate me and conclude the session.\n\n**Your first message to me should be a brief, welcoming greeting, confirming you have understood the context and are ready to begin with the first targeted quiz.**\n"

/-- `PROMPT_TEMPLATE.format(class_name=..., topic_list=..., file_names_str=...)`
(lines 114-118): each placeholder occurs exactly once, so formatting is the
concatenation of the four literal parts around the three substituted values,
in template order class_name, file_names_str, topic_list. -/
def formatTemplate (class_name topic_list v_file_names_str : String) : String :=
  PROMPT_TEMPLATE_1 ++ class_name ++ PROMPT_TEMPLATE_2 ++ v_file_names_str ++
    PROMPT_TEMPLATE_3 ++ topic_list ++ PROMPT_TEMPLATE_4

/-- Lines 108-111: the joined file-name string, or the fixed placeholder
sentence when the list is empty (a Python list is falsy exactly when empty). -/
def file_names_str (file_names : List String) : String :=
  if file_names = [] then "No files provided. Using topic list only."
  else String.intercalate ", " file_names

/-- The Prompt Builder: lines 106-118 as one function of the course name,
the topic list text, and the uploaded file names. -/
def build (class_name topic_list : String) (file_names : List String) : String :=
  formatTemplate class_name topic_list (file_names_str file_names)

/-- The Configuration entity of the spec: course name, topic list text, and
the ordered uploaded files (with contents, which the app ignores). -/
structure Configuration where
  courseName : String
  topicListText : String
  uploadedFiles : List UploadedFile

/-- The Prompt Builder applied to a Configuration: only the names of the
uploaded files are extracted (line 107). -/
def buildConfig (cfg : Configuration) : String :=
  build cfg.courseName cfg.topicListText (cfg.uploadedFiles.map UploadedFile.name)

/-- The remote provider abstracted: `start` is configure + start_chat +
the first send_message (lines 104-126 inside the try), `send` is
send_message on an existing session (line 158). Failure of either models a
raised exception. -/
structure Provider where
  start : String → Except String (ChatSession × String)
  send : ChatSession → String → Except String String

/-- Streamlit session state as the app uses it: the two keys
`gemini_chat` and `messages`, each absent until first assigned
(lines 129-130). -/
structure AppState where
  gemini_chat : Option ChatSession
  messages : Option (List TranscriptEntry)
deriving DecidableEq, Repr

/-- Session state before any successful generate: neither key present. -/
def initState : AppState := ⟨none, none⟩

/-- A message surfaced to the user by the handlers: a validation error
(`st.error` at lines 97, 99), a provider error (`st.error` in an except
block, lines 135, 166), or the success banner (line 132). -/
inductive UiMessage where
  | configError (msg : String)
  | providerError (msg : String)
  | successMsg (msg : String)
deriving DecidableEq, Repr

/-- Whether a surfaced message is one of the two validation errors. -/
def isConfigError : UiMessage → Bool
  | UiMessage.configError _ => true
  | _ => false

/-- The body of the generate handler after validation (the try/except,
lines 101-136): build the prompt, start the session; on success store the
chat handle and the one-element transcript, on failure leave state
unchanged and surface the error. -/
def generateSession (p : Provider) (class_name topic_list : String)
    (uploaded_files : List UploadedFile) (s : AppState) : AppState × UiMessage :=
  match p.start (build class_name topic_list (uploaded_files.map UploadedFile.name)) with
  | Except.ok r =>
      (⟨some r.1, some [⟨"assistant", r.2⟩]⟩,
        UiMessage.successMsg "Tutor generated successfully! You can now start chatting below.")
  | Except.error e => (s, UiMessage.providerError ("An error occurred: " ++ e))

/-- The "Generate Tutor" button handler (lines 95-136): reject an empty API
key, then an empty course name or topic list (Python truthiness of a str is
non-emptiness), else run the session body. -/
def generateClick (p : Provider) (api_key class_name topic_list : String)
    (uploaded_files : List UploadedFile) (s : AppState) : AppState × UiMessage :=
  if api_key = "" then
    (s, UiMessage.configError "Please enter your Gemini API Key in the sidebar.")
  else if class_name = "" ∨ topic_list = "" then
    (s, UiMessage.configError "Please provide the Course Name and Topic List.")
  else
    generateSession p class_name topic_list uploaded_files s

/-- The chat interface (lines 139-166), guard included: rendered only when
`messages` is in session state. On input, the user entry is appended first
(line 150); then, inside try, the chat handle is read (a missing handle
raises and is caught by the except at line 165) and the message sent; on
success the assistant entry is appended, on failure the error is surfaced
with no further change. -/
def chatInterface (p : Provider) (prompt : String) (s : AppState) : AppState × Option UiMessage :=
  match s.messages with
  | none => (s, none)
  | some msgs =>
      match s.gemini_chat with
      | none =>
          (⟨s.gemini_chat, some (msgs ++ [⟨"user", prompt⟩])⟩,
            some (UiMessage.providerError
              "An error occurred while communicating with the AI: st.session_state has no attribute gemini_chat"))
      | some chat =>
          match p.send chat prompt with
          | Except.ok reply =>
              (⟨s.gemini_chat, some (msgs ++ [⟨"user", prompt⟩] ++ [⟨"assistant", reply⟩])⟩, none)
          | Except.error e =>
              (⟨s.gemini_chat, some (msgs ++ [⟨"user", prompt⟩])⟩,
                some (UiMessage.providerError
                  ("An error occurred while communicating with the AI: " ++ e)))

/-- One user-visible event of the app: a click of "Generate Tutor" with some
field contents, or a chat submission (possible only while the chat interface
is rendered, i.e. `messages` exists, and `st.chat_input` yields a non-empty
string). -/
inductive Step (p : Provider) : AppState → AppState → Prop
  | generate (k c t : String) (u : List UploadedFile) (s : AppState) :
      Step p s (generateClick p k c t u s).1
  | chatSend (m : String) (s : AppState)
      (hrender : s.messages.isSome = true) (hm : m ≠ "") :
      Step p s (chatInterface p m s).1

/-- States reachable from the fresh session state by app events. -/
inductive Reachable (p : Provider) : AppState → Prop
  | init : Reachable p initState
  | step {s s' : AppState} : Reachable p s → Step p s s' → Reachable p s'

/-- Substring as explicit decomposition. -/
def ContainsStr (s sub : String) : Prop := ∃ p q, s = p ++ sub ++ q

/-- A provider whose calls always succeed, for concrete executions. -/
def stubProvider : Provider :=
  ⟨fun _ => Except.ok (⟨0⟩, "R1"), fun _ _ => Except.ok "R2"⟩

/-- A provider whose `send` always fails, for concrete executions. -/
def failProvider : Provider :=
  ⟨fun _ => Except.ok (⟨0⟩, "R1"), fun _ _ => Except.error "boom"⟩

theorem strAppend_assoc (a b c : String) : a ++ b ++ c = a ++ (b ++ c) := by
  cases a with
  | mk da =>
    cases b with
    | mk db =>
      cases c with
      | mk dc =>
        show String.append (String.append ⟨da⟩ ⟨db⟩) ⟨dc⟩
          = String.append ⟨da⟩ (String.append ⟨db⟩ ⟨dc⟩)
        simp [String.append, List.append_assoc]

example : file_names_str ["a.pdf", "b.txt"] = "a.pdf, b.txt" := by decide

example : file_names_str [] = "No files provided. Using topic list only." := by rfl

/-- Decomposition helper: the built prompt is the joined-or-placeholder file
string surrounded by the template pieces with the other fields substituted. -/
theorem build_decomp (class_name topic_list : String) (names : List String) :
    build class_name topic_list names
      = (PROMPT_TEMPLATE_1 ++ class_name ++ PROMPT_TEMPLATE_2)
        ++ file_names_str names
        ++ (PROMPT_TEMPLATE_3 ++ topic_list ++ PROMPT_TEMPLATE_4) := by
  simp [build, formatTemplate, strAppend_assoc]

/-- Claim C3: the Prompt Builder is a pure, deterministic function of the
Configuration: two builds from identical Configurations yield identical
PromptText. In this embedding the builder takes no clock, randomness, or
hidden state, so the result follows from congruence. -/
theorem c3_thm (c1 c2 : Configuration) (h : c1 = c2) :
    buildConfig c1 = buildConfig c2 := by
  rw [h]

/-- Witness for C3 at a concrete Configuration. -/
theorem c3_witness :
    buildConfig ⟨"CS101", "Recursion", []⟩ = buildConfig ⟨"CS101", "Recursion", []⟩ :=
  c3_thm ⟨"CS101", "Recursion", []⟩ ⟨"CS101", "Recursion", []⟩ rfl

/-- Claim C7: the PromptText depends only on the names of the uploaded
files, never on their contents: Configurations agreeing on courseName,
topicListText and the sequence of file names build identical PromptText. -/
theorem c7_thm (c1 c2 : Configuration)
    (hname : c1.courseName = c2.courseName)
    (htopic : c1.topicListText = c2.topicListText)
    (hfiles : c1.uploadedFiles.map UploadedFile.name
      = c2.uploadedFiles.map UploadedFile.name) :
    buildConfig c1 = buildConfig c2 := by
  unfold buildConfig build
  rw [hname, htopic, hfiles]

/-- Witness for C7: same file name, different contents, same prompt. -/
theorem c7_witness :
    buildConfig ⟨"CS101", "Recursion", [⟨"a.pdf", "content one"⟩]⟩
      = buildConfig ⟨"CS101", "Recursion", [⟨"a.pdf", "content two"⟩]⟩ :=
  c7_thm ⟨"CS101", "Recursion", [⟨"a.pdf", "content one"⟩]⟩
    ⟨"CS101", "Recursion", [⟨"a.pdf", "content two"⟩]⟩ rfl rfl rfl

/-- Claim C4: for a non-empty file-name list the PromptText contains the
names joined with a comma and a space in upload order; for the empty list it
contains the fixed placeholder sentence instead. -/
theorem c4_thm (class_name topic_list : String) (names : List String) :
    (names ≠ [] →
      ContainsStr (build class_name topic_list names)
        (String.intercalate ", " names))
    ∧ (names = [] →
      ContainsStr (build class_name topic_list names)
        "No files provided. Using topic list only.") := by
  constructor
  · intro h
    refine ⟨PROMPT_TEMPLATE_1 ++ class_name ++ PROMPT_TEMPLATE_2,
      PROMPT_TEMPLATE_3 ++ topic_list ++ PROMPT_TEMPLATE_4, ?_⟩
    rw [build_decomp]
    simp [file_names_str, h]
  · intro h
    refine ⟨PROMPT_TEMPLATE_1 ++ class_name ++ PROMPT_TEMPLATE_2,
      PROMPT_TEMPLATE_3 ++ topic_list ++ PROMPT_TEMPLATE_4, ?_⟩
    rw [build_decomp]
    simp [file_names_str, h]

/-- Witness for C4 at the list from the spec and at the empty list. -/
theorem c4_witness :
    ContainsStr (build "CS101" "Recursion" ["a.pdf", "b.txt"])
      (String.intercalate ", " ["a.pdf", "b.txt"])
    ∧ String.intercalate ", " ["a.pdf", "b.txt"] = "a.pdf, b.txt"
    ∧ ContainsStr (build "CS101" "Recursion" [])
      "No files provided. Using topic list only." :=
  ⟨(c4_thm "CS101" "Recursion" ["a.pdf", "b.txt"]).1 (by decide), by decide,
    (c4_thm "CS101" "Recursion" []).2 rfl⟩

/-- Claim C8: for a Configuration that passes validation, the PromptText
contains courseName and topicListText verbatim as substrings. -/
theorem c8_thm (cfg : Configuration)
    (hc : cfg.courseName ≠ "") (ht : cfg.topicListText ≠ "") :
    ContainsStr (buildConfig cfg) cfg.courseName
    ∧ ContainsStr (buildConfig cfg) cfg.topicListText := by
  constructor
  · refine ⟨PROMPT_TEMPLATE_1,
      PROMPT_TEMPLATE_2 ++ file_names_str (cfg.uploadedFiles.map UploadedFile.name)
        ++ PROMPT_TEMPLATE_3 ++ cfg.topicListText ++ PROMPT_TEMPLATE_4, ?_⟩
    simp [buildConfig, build, formatTemplate, strAppend_assoc]
  · refine ⟨PROMPT_TEMPLATE_1 ++ cfg.courseName ++ PROMPT_TEMPLATE_2
        ++ file_names_str (cfg.uploadedFiles.map UploadedFile.name) ++ PROMPT_TEMPLATE_3,
      PROMPT_TEMPLATE_4, ?_⟩
    simp [buildConfig, build, formatTemplate, strAppend_assoc]

/-- Witness for C8 at the end-to-end scenario Configuration of the spec. -/
theorem c8_witness :
    ContainsStr (buildConfig ⟨"CS101", "Recursion", []⟩) "CS101"
    ∧ ContainsStr (buildConfig ⟨"CS101", "Recursion", []⟩) "Recursion" :=
  c8_thm ⟨"CS101", "Recursion", []⟩ (by decide) (by decide)

/-- Claim C5: with an empty API key, course name, or topic list, the
generate handler surfaces a ConfigurationError, leaves state unchanged, and
behaves identically for every provider (so no network call and no prompt
construction happens); with all three non-empty it runs the session body,
which builds the prompt and calls the provider. -/
theorem c5_thm (p q : Provider) (k c t : String) (u : List UploadedFile) (s : AppState) :
    ((k = "" ∨ c = "" ∨ t = "") →
      isConfigError (generateClick p k c t u s).2 = true
      ∧ (generateClick p k c t u s).1 = s
      ∧ generateClick p k c t u s = generateClick q k c t u s)
    ∧ (k ≠ "" → c ≠ "" → t ≠ "" →
      generateClick p k c t u s = generateSession p c t u s) := by
  constructor
  · intro h
    by_cases hk : k = ""
    · simp [generateClick, hk, isConfigError]
    · have hct : c = "" ∨ t = "" := by tauto
      simp [generateClick, hk, hct, isConfigError]
  · intro hk hc ht
    simp [generateClick, hk, hc, ht]

/-- Witness for C5: an empty API key is rejected with state unchanged and
the provider irrelevant; non-empty fields reach the session body. -/
theorem c5_witness :
    (isConfigError (generateClick stubProvider "" "CS101" "Recursion" [] initState).2 = true
      ∧ (generateClick stubProvider "" "CS101" "Recursion" [] initState).1 = initState
      ∧ generateClick stubProvider "" "CS101" "Recursion" [] initState
        = generateClick failProvider "" "CS101" "Recursion" [] initState)
    ∧ generateClick stubProvider "k" "CS101" "Recursion" [] initState
      = generateSession stubProvider "CS101" "Recursion" [] initState :=
  ⟨(c5_thm stubProvider failProvider "" "CS101" "Recursion" [] initState).1 (Or.inl rfl),
    (c5_thm stubProvider failProvider "k" "CS101" "Recursion" [] initState).2
      (by decide) (by decide) (by decide)⟩

/-- Claim C9: the generate validation rejects exactly when a field is the
empty string; whitespace-only (hence non-empty) values pass validation and
the session body receives them verbatim, with no trimming. -/
theorem c9_thm (p : Provider) (k c t : String) (u : List UploadedFile) (s : AppState) :
    (isConfigError (generateClick p k c t u s).2 = true ↔ (k = "" ∨ c = "" ∨ t = ""))
    ∧ (k ≠ "" → c ≠ "" → t ≠ "" →
      generateClick p k c t u s = generateSession p c t u s) := by
  have hsess : ∀ (cn tl : String), isConfigError (generateSession p cn tl u s).2 = false := by
    intro cn tl
    unfold generateSession
    split <;> simp [isConfigError]
  constructor
  · constructor
    · intro hcfg
      by_contra hne
      push_neg at hne
      obtain ⟨hk, hc, ht⟩ := hne
      rw [show generateClick p k c t u s = generateSession p c t u s by
        simp [generateClick, hk, hc, ht]] at hcfg
      rw [hsess c t] at hcfg
      exact Bool.false_ne_true hcfg
    · intro h
      by_cases hk : k = ""
      · simp [generateClick, hk, isConfigError]
      · have hct : c = "" ∨ t = "" := by tauto
        simp [generateClick, hk, hct, isConfigError]
  · intro hk hc ht
    simp [generateClick, hk, hc, ht]

/-- Witness for C9: single-space (whitespace-only, non-empty) API key,
course name, and topic list pass validation and reach the session body
verbatim. -/
theorem c9_witness :
    generateClick stubProvider " " " " " " [] initState
      = generateSession stubProvider " " " " [] initState :=
  (c9_thm stubProvider " " " " " " [] initState).2 (by decide) (by decide) (by decide)

/-- Claim C2: after a successful generate the transcript is exactly one
assistant entry holding the first reply; after a successful send the
transcript grows by exactly two entries, the user message then the
assistant reply, in order. -/
theorem c2_thm (p : Provider) (k c t : String) (u : List UploadedFile) (s s2 : AppState)
    (msgs : List TranscriptEntry) (chat : ChatSession) (m reply r1 : String) :
    (k ≠ "" → c ≠ "" → t ≠ "" →
      p.start (build c t (u.map UploadedFile.name)) = Except.ok (chat, r1) →
      (generateClick p k c t u s).1.messages = some [⟨"assistant", r1⟩])
    ∧ (s2.messages = some msgs → s2.gemini_chat = some chat →
      p.send chat m = Except.ok reply →
      (chatInterface p m s2).1.messages
        = some (msgs ++ [⟨"user", m⟩, ⟨"assistant", reply⟩])) := by
  constructor
  · intro hk hc ht hstart
    simp [generateClick, hk, hc, ht, generateSession, hstart]
  · intro hmsgs hchat hsend
    simp [chatInterface, hmsgs, hchat, hsend]

/-- Witness for C2: the end-to-end scenario with the stub provider. -/
theorem c2_witness :
    (generateClick stubProvider "k" "CS101" "Recursion" [] initState).1.messages
      = some [⟨"assistant", "R1"⟩]
    ∧ (chatInterface stubProvider "quiz me" ⟨some ⟨0⟩, some [⟨"assistant", "R1"⟩]⟩).1.messages
      = some ([⟨"assistant", "R1"⟩] ++ [⟨"user", "quiz me"⟩, ⟨"assistant", "R2"⟩]) :=
  ⟨(c2_thm stubProvider "k" "CS101" "Recursion" [] initState
      ⟨some ⟨0⟩, some [⟨"assistant", "R1"⟩]⟩ [⟨"assistant", "R1"⟩] ⟨0⟩ "quiz me" "R2" "R1").1
      (by decide) (by decide) (by decide) rfl,
    (c2_thm stubProvider "k" "CS101" "Recursion" [] initState
      ⟨some ⟨0⟩, some [⟨"assistant", "R1"⟩]⟩ [⟨"assistant", "R1"⟩] ⟨0⟩ "quiz me" "R2" "R1").2
      rfl rfl rfl⟩

/-- Claim C6: a second successful generate replaces the session and
discards the prior transcript entirely: whatever the prior state, the new
state is exactly the new chat handle and the single assistant entry holding
the new first reply. -/
theorem c6_thm (p : Provider) (k c t : String) (u : List UploadedFile) (s : AppState)
    (chat : ChatSession) (r1 : String)
    (hk : k ≠ "") (hc : c ≠ "") (ht : t ≠ "")
    (hstart : p.start (build c t (u.map UploadedFile.name)) = Except.ok (chat, r1)) :
    (generateClick p k c t u s).1 = ⟨some chat, some [⟨"assistant", r1⟩]⟩ := by
  simp [generateClick, hk, hc, ht, generateSession, hstart]

/-- Witness for C6: regenerating over a state that holds an old session and
a two-entry transcript leaves none of the old entries. -/
theorem c6_witness :
    (generateClick stubProvider "k" "CS102" "Graphs" []
      ⟨some ⟨7⟩, some [⟨"assistant", "old1"⟩, ⟨"user", "old2"⟩]⟩).1
      = ⟨some ⟨0⟩, some [⟨"assistant", "R1"⟩]⟩ :=
  c6_thm stubProvider "k" "CS102" "Graphs" []
    ⟨some ⟨7⟩, some [⟨"assistant", "old1"⟩, ⟨"user", "old2"⟩]⟩ ⟨0⟩ "R1"
    (by decide) (by decide) (by decide) rfl

/-- Counterexample to claim C1 as stated: in a session whose transcript
holds one assistant entry, a send whose provider call fails with a
ProviderError leaves a transcript of length 2, not 1 — the user entry was
appended (line 150) before the provider call (line 158) and is not rolled
back by the except handler. -/
theorem c1_counterexample :
    ((chatInterface failProvider "quiz me"
        ⟨some ⟨0⟩, some [⟨"assistant", "R1"⟩]⟩).1.messages.getD []).length = 2
    ∧ (((⟨some ⟨0⟩, some [⟨"assistant", "R1"⟩]⟩ : AppState).messages.getD []).length = 1)
    ∧ (chatInterface failProvider "quiz me"
        ⟨some ⟨0⟩, some [⟨"assistant", "R1"⟩]⟩).2
      = some (UiMessage.providerError
          "An error occurred while communicating with the AI: boom") :=
  ⟨rfl, rfl, rfl⟩

/-- Claim C1 amended: when a send fails with a ProviderError, the
transcript grows by exactly one entry — the user message, appended before
the provider call — and no assistant entry is appended; the chat session
handle is unchanged. -/
theorem c1_thm (p : Provider) (m e : String) (s : AppState)
    (msgs : List TranscriptEntry) (chat : ChatSession)
    (hmsgs : s.messages = some msgs) (hchat : s.gemini_chat = some chat)
    (hfail : p.send chat m = Except.error e) :
    (chatInterface p m s).1.messages = some (msgs ++ [⟨"user", m⟩])
    ∧ (chatInterface p m s).1.gemini_chat = s.gemini_chat := by
  simp [chatInterface, hmsgs, hchat, hfail]

/-- Witness for the amended C1 at a concrete failing send. -/
theorem c1_witness :
    (chatInterface failProvider "hi" ⟨some ⟨0⟩, some [⟨"assistant", "R1"⟩]⟩).1.messages
      = some ([⟨"assistant", "R1"⟩] ++ [⟨"user", "hi"⟩])
    ∧ (chatInterface failProvider "hi" ⟨some ⟨0⟩, some [⟨"assistant", "R1"⟩]⟩).1.gemini_chat
      = (⟨some ⟨0⟩, some [⟨"assistant", "R1"⟩]⟩ : AppState).gemini_chat :=
  c1_thm failProvider "hi" "boom" ⟨some ⟨0⟩, some [⟨"assistant", "R1"⟩]⟩
    [⟨"assistant", "R1"⟩] ⟨0⟩ rfl rfl rfl

/-- The generate handler either leaves state unchanged (validation failure
or provider failure) or stores the chat handle and the transcript
together. -/
theorem generateClick_state (p : Provider) (k c t : String)
    (u : List UploadedFile) (s : AppState) :
    (generateClick p k c t u s).1 = s
    ∨ ((generateClick p k c t u s).1.gemini_chat.isSome = true
      ∧ (generateClick p k c t u s).1.messages.isSome = true) := by
  unfold generateClick
  split
  · exact Or.inl rfl
  · split
    · exact Or.inl rfl
    · unfold generateSession
      split
      · exact Or.inr ⟨rfl, rfl⟩
      · exact Or.inl rfl

/-- The chat interface never changes the chat handle. -/
theorem chatInterface_chat (p : Provider) (m : String) (s : AppState) :
    (chatInterface p m s).1.gemini_chat = s.gemini_chat := by
  unfold chatInterface
  split
  · rfl
  · split
    · rfl
    · split <;> rfl

/-- One app event preserves the invariant that a transcript implies a live
chat handle. -/
theorem step_preserves (p : Provider) {s s' : AppState} (hstep : Step p s s')
    (hinv : s.messages.isSome = true → s.gemini_chat.isSome = true) :
    s'.messages.isSome = true → s'.gemini_chat.isSome = true := by
  cases hstep with
  | generate k c t u =>
      intro hm
      rcases generateClick_state p k c t u s with hEq | ⟨h1, _⟩
      · rw [hEq] at hm ⊢
        exact hinv hm
      · exact h1
  | chatSend m s2 hrender hm0 =>
      intro _
      rw [chatInterface_chat]
      exact hinv hrender

/-- Claim C10: in every reachable session state, if the transcript exists
then a chat session handle exists too — both are stored together only on a
successful generate — so a send, which the rendering guard allows only when
the transcript exists, never runs without a live session and the
InvalidSession case is unreachable. -/
theorem c10_thm (p : Provider) (s : AppState) (h : Reachable p s) :
    s.messages.isSome = true → s.gemini_chat.isSome = true := by
  induction h with
  | init => intro hm; simp [initState] at hm
  | step hr hstep ih => exact step_preserves p hstep ih

/-- Witness for C10: the state after one successful generate is reachable,
its transcript exists, and the theorem yields a live chat handle. -/
theorem c10_witness :
    (generateClick stubProvider "k" "CS101" "Recursion" [] initState).1.gemini_chat.isSome
      = true :=
  c10_thm stubProvider (generateClick stubProvider "k" "CS101" "Recursion" [] initState).1
    (Reachable.step Reachable.init (Step.generate "k" "CS101" "Recursion" [] initState))
    (by rfl)
